import Mathlib

/-!
Verification of the differential/blind detection oracle of the scanner
repository (backend/active/injection, backend/diffing, backend/core).

The Python source is shallowly embedded:
  * HTTP responses become a `Response` record (status, body, elapsed seconds);
    the network is an oracle function from the injected payload to a response,
    so `url_safe`/`_with_param` URL plumbing is folded into the oracle.
  * Python floats are modelled as exact rationals; the thresholds 0.60, 0.85,
    0.70 and 4.5 from the source appear as the exact rationals
    mkRat 6 10, mkRat 85 100, mkRat 7 10 and mkRat 9 2 (the core Rat
    constructor, which the kernel can evaluate).
  * `re.search` over the `DB_ERRORS` alternation is embedded by a small
    matcher covering exactly the constructs those sixteen patterns use
    (literals, `.*`, `\s+`, `\d{n}`, an optional character), with
    `re.IGNORECASE` modelled by lower-casing both pattern and subject.
-/

namespace VScan

/-- Response of one HTTP probe: status code (0 is the transport-failure
sentinel), body text, and elapsed wall-clock seconds of the request. -/
structure Response where
  status : Nat
  body : String
  elapsed : ℚ
deriving DecidableEq

/-- Fallback similarity measure of `ResponseDiffer` as defined in
`cmdi.py` (lines 40-43) and `hpp.py` (lines 23-24): exact match scores 1.0,
anything else 0.0. This is the only `similarity` implementation present in
the repository (`diffing/responses.py` defines no `ResponseDiffer`). -/
def similarity (a b : String) : ℚ :=
  if a = b then 1 else 0

/-- Whitespace class of Python's regex `\s` (ASCII range). -/
def isWs (c : Char) : Bool :=
  c == ' ' || c == '\t' || c == '\n' || c == '\r' || c == '\x0b' || c == '\x0c'

/-- Tokens of the tiny regex fragment used by the `DB_ERRORS` table in
`sqli.py`: literal runs, `.*` (not crossing newlines), `\s+`, `\d{n}`,
and a single optional character (for `mysqli?`). -/
inductive RTok where
  | lit (s : List Char)
  | dotStar
  | wsPlus
  | digits (n : Nat)
  | opt (c : Char)

/-- Matches one token against the front of the character list and hands the
remainder to the continuation `k`, with backtracking (existential over split
points), like Python `re`. -/
def tokMatcher (t : RTok) (k : List Char → Bool) (cs : List Char) : Bool :=
  match t with
  | RTok.lit s =>
      s.isPrefixOf cs && k (cs.drop s.length)
  | RTok.dotStar =>
      (List.range (cs.length + 1)).any fun i =>
        ((cs.take i).all fun c => c != '\n') && k (cs.drop i)
  | RTok.wsPlus =>
      (List.range cs.length).any fun i =>
        decide ((cs.take (i + 1)).length = i + 1) &&
          (cs.take (i + 1)).all isWs && k (cs.drop (i + 1))
  | RTok.digits n =>
      decide ((cs.take n).length = n) && (cs.take n).all Char.isDigit &&
        k (cs.drop n)
  | RTok.opt c =>
      k cs ||
        (match cs with
         | c2 :: rest => c2 == c && k rest
         | [] => false)

/-- Matches a token sequence at the start of the character list. -/
def matchToks : List RTok → List Char → Bool
  | [] => fun _ => true
  | t :: ts => tokMatcher t (matchToks ts)

/-- Search anywhere in the subject, like `re.search`. -/
def rsearch (ts : List RTok) (cs : List Char) : Bool :=
  (List.range (cs.length + 1)).any fun i => matchToks ts (cs.drop i)

/-- The DB_ERRORS fingerprint table of `sqli.py`, one entry per regex
alternative, literals pre-lowercased to model `re.IGNORECASE`. -/
def DB_ERRORS : List (List RTok) :=
  [ [RTok.lit "sql syntax".toList, RTok.dotStar, RTok.lit "mysql".toList],
    [RTok.lit "warning: mysql".toList, RTok.opt 'i', RTok.lit "::".toList],
    [RTok.lit "mysql server version for the right syntax".toList],
    [RTok.lit "unknown column '".toList, RTok.dotStar,
      RTok.lit "' in 'field list'".toList],
    [RTok.lit "pg::syntaxerror".toList],
    [RTok.lit "psql: error".toList],
    [RTok.lit "error:".toList, RTok.wsPlus,
      RTok.lit "syntax error at or near".toList],
    [RTok.lit "invalid input syntax for type".toList],
    [RTok.lit "unclosed quotation mark after the character string".toList],
    [RTok.lit "sql server".toList, RTok.dotStar, RTok.lit "driver".toList],
    [RTok.lit "microsoft ole db provider for sql server".toList],
    [RTok.lit "ora-".toList, RTok.digits 5],
    [RTok.lit "oracle error".toList],
    [RTok.lit "sqlite/jdbcdriver".toList],
    [RTok.lit "sqlite_error".toList],
    [RTok.lit "near \"select\": syntax error".toList] ]

/-- Embeds `SQLiScanner._looks_like_db_error`: true iff
`DB_ERROR_RE.search(body)` finds a match (the caller only uses its
truthiness to decide). -/
def looks_like_db_error (body : String) : Bool :=
  DB_ERRORS.any fun p => rsearch p (body.toList.map Char.toLower)

/-- Network oracle for one scan target: `base` is the response to the
unmodified URL, `probe p v` the response once query parameter `p` is set to
payload `v` (the `_with_param`/`url_safe` URL construction is folded into
the oracle, which is injective on the payload lists used). -/
structure Network where
  base : Response
  probe : String → String → Response

/-- Embeds `SQLiScanner._fetch`'s exception handler: a transport error is
converted to the sentinel `(0, "", {})` instead of being re-raised. -/
def fetch_result : Except String Response → Response
  | Except.ok r => r
  | Except.error _ => ⟨0, "", 0⟩

/-- The claim-relevant fields of the dict built by `SQLiScanner._report`. -/
structure Finding where
  title : String
  param : String
  technique : String
  severity : String
deriving DecidableEq

/-- Severity rule of `SQLiScanner._report`:
"High" if technique in ("time-blind", "union-based", "error-based"). -/
def severityFor (technique : String) : String :=
  if technique = "time-blind" ∨ technique = "union-based" ∨
      technique = "error-based" then "High" else "Medium"

/-- Builds the finding `SQLiScanner._report` returns (and logs). -/
def report (title param technique : String) : Finding :=
  ⟨title, param, technique, severityFor technique⟩

/-- Payload pairs `SQLiScanner.boolean_pairs`. -/
def boolean_pairs : List (String × String) :=
  [ ("1' OR '1'='1", "1' AND '1'='2"),
    ("1) OR (1=1", "1) AND (1=2"),
    ("1') OR ('1'='1", "1') AND ('1'='2") ]

/-- Payloads `SQLiScanner.error_payloads`. -/
def error_payloads : List String :=
  [ "'", "\"", "'))", "'))--", "`", "1'--", "1')--", "1\"--", "1) --" ]

/-- Payloads `SQLiScanner.time_payloads`. -/
def time_payloads : List String :=
  [ "1' OR SLEEP(5)-- ",
    "1'); SELECT pg_sleep(5); --",
    "1) OR SLEEP(5)-- ",
    "1) ; SELECT pg_sleep(5); --" ]

/-- The cached triple `(status, len(body), body[:4000])` of
`SQLiScanner._baseline`. -/
structure Baseline where
  status : Nat
  blen : Nat
  snippet : String
deriving DecidableEq

/-- Snapshot taken from a response: `(status, len(body), body[:4000])`
(the character slice is taken on the underlying character list, which is
what Python's string slicing does). -/
def mkBaseline (r : Response) : Baseline :=
  ⟨r.status, r.body.length, String.mk (r.body.data.take 4000)⟩

/-- Embeds `SQLiScanner._baseline` with the mutable dict made explicit:
the cache maps a parameter name to its stored snapshot; returns the
snapshot, the updated cache, and how many network fetches were performed
(0 on a cache hit, 1 on a miss). Note the source keys the dict by `param`
alone; the `url` argument only feeds the fetch on a miss. -/
def get_baseline (fetch : String → Response) (cache : List (String × Baseline))
    (url param : String) : Baseline × List (String × Baseline) × Nat :=
  match cache.lookup param with
  | some b => (b, cache, 0)
  | none =>
      let b := mkBaseline (fetch url)
      (b, (param, b) :: cache, 1)

/-- Phase 1 of `SQLiScanner.scan_get_params` ("Error-based quick checks"):
first payload whose response is not the failure sentinel and whose body
matches a DB error fingerprint wins; one finding is enough (break). -/
def error_phase (net : Network) (p : String) : List String → Option Finding
  | [] => none
  | inj :: rest =>
      let r := net.probe p inj
      if r.status = 0 then error_phase net p rest
      else if looks_like_db_error r.body then
        some (report "SQL Injection (Error-based)" p "error-based")
      else error_phase net p rest

/-- Phase 2 of `SQLiScanner.scan_get_params` ("Boolean-based blind"):
skip a pair if either response is the sentinel; flag when
`sim_tf < 0.60 and (sim_tb > 0.85 or sim_fb > 0.85)`; break on the first
match. -/
def boolean_phase (sim : String → String → ℚ) (net : Network) (p : String)
    (bsnip : String) : List (String × String) → Option Finding
  | [] => none
  | (t, fv) :: rest =>
      let rt := net.probe p t
      let rf := net.probe p fv
      if rt.status = 0 ∨ rf.status = 0 then boolean_phase sim net p bsnip rest
      else
        let sim_tf := sim rt.body rf.body
        let sim_tb := sim rt.body bsnip
        let sim_fb := sim rf.body bsnip
        if sim_tf < mkRat 6 10 ∧ (sim_tb > mkRat 85 100 ∨ sim_fb > mkRat 85 100) then
          some (report "SQL Injection (Boolean-based)" p "boolean-blind")
        else boolean_phase sim net p bsnip rest

/-- Phase 3 of `SQLiScanner.scan_get_params` ("Time-based blind"):
skip sentinel responses; flag when the elapsed time is at least 4.5s;
break on the first match. -/
def time_phase (net : Network) (p : String) : List String → Option Finding
  | [] => none
  | inj :: rest =>
      let r := net.probe p inj
      if r.status = 0 then time_phase net p rest
      else if r.elapsed ≥ mkRat 9 2 then
        some (report "SQL Injection (Time-based)" p "time-blind")
      else time_phase net p rest

/-- The `",".join(["NULL"] * cols)` string of the union probe. -/
def nulls_join (cols : Nat) : String :=
  String.intercalate "," (List.replicate cols "NULL")

/-- The union probe payload `f"1 UNION SELECT {nulls}-- "`. -/
def union_payload (cols : Nat) : String :=
  "1 UNION SELECT " ++ nulls_join cols ++ "-- "

/-- The technique string `f"union-based (cols~{cols})"` passed to
`_report` by the union phase. -/
def union_technique (cols : Nat) : String :=
  "union-based (cols~" ++ Nat.repr cols ++ ")"

/-- Phase 4 of `SQLiScanner.scan_get_params` ("Union-based quick probe")
over an explicit list of column counts: skip sentinel responses; flag the
first count whose similarity to the baseline snippet drops below 0.70. -/
def union_phase (sim : String → String → ℚ) (net : Network) (p : String)
    (bsnip : String) : List Nat → Option Finding
  | [] => none
  | cols :: rest =>
      let r := net.probe p (union_payload cols)
      if r.status = 0 then union_phase sim net p bsnip rest
      else if sim r.body bsnip < mkRat 7 10 then
        some (report "SQL Injection (UNION-based, columns guess)" p
          (union_technique cols))
      else union_phase sim net p bsnip rest

/-- The `range(1, max_union_cols + 1)` iteration of the union phase. -/
def union_cols_range (maxCols : Nat) : List Nat :=
  (List.range maxCols).map fun i => i + 1

/-- One iteration of the `for p in params` loop of
`SQLiScanner.scan_get_params`: the four probe phases in source order, each
contributing at most one finding for `p`. -/
def scan_param (sim : String → String → ℚ) (net : Network) (maxCols : Nat)
    (p : String) (b : Baseline) : List Finding :=
  (error_phase net p error_payloads).toList ++
  (boolean_phase sim net p b.snippet boolean_pairs).toList ++
  (time_phase net p time_payloads).toList ++
  (union_phase sim net p b.snippet (union_cols_range maxCols)).toList

/-- The parameter loop of `SQLiScanner.scan_get_params`, threading the
baseline cache exactly as `self._baselines` is threaded through
`_baseline` (one target URL per call, hence the constant fetch). -/
def scan_go (sim : String → String → ℚ) (net : Network) (maxCols : Nat) :
    List (String × Baseline) → List String → List Finding
  | _, [] => []
  | cache, p :: rest =>
      let res := get_baseline (fun _ => net.base) cache "" p
      scan_param sim net maxCols p res.1 ++ scan_go sim net maxCols res.2.1 rest

/-- Embeds `SQLiScanner.scan_get_params` (GET branch): scan every
parameter, starting from an empty baseline cache. -/
def scan_get_params (sim : String → String → ℚ) (net : Network)
    (maxCols : Nat) (params : List String) : List Finding :=
  scan_go sim net maxCols [] params

/-- The claim-relevant fields of the dict built by `NoSQLiScanner._report`
(severity is the hard-coded "High" of that function). -/
structure NFinding where
  title : String
  param : String
  severity : String
deriving DecidableEq

/-- Payload pairs `NoSQLiScanner.boolean_pairs`. -/
def nosqli_boolean_pairs : List (String × String) :=
  [ ("\x7b\"$ne\": null\x7d", "\"fixedvalue\""),
    ("\x7b\"$gt\": \"\"\x7d", "\"zzzzzzzzzz\""),
    ("\x7b\"$regex\": \".*\"\x7d", "\"no_such_value_12345\"") ]

/-- The boolean-pair loop of `NoSQLiScanner.scan_get_params`: same shape as
the SQLi one, but the decision also fires when the status codes of the
true and false responses differ
(`sim_tf < 0.60 and (sim_tb > 0.85 or sim_fb > 0.85 or st_t != st_f)`). -/
def nosqli_boolean_phase (sim : String → String → ℚ) (net : Network)
    (p : String) (bsnip : String) : List (String × String) → Option NFinding
  | [] => none
  | (t, fv) :: rest =>
      let rt := net.probe p t
      let rf := net.probe p fv
      if rt.status = 0 ∨ rf.status = 0 then
        nosqli_boolean_phase sim net p bsnip rest
      else
        let sim_tf := sim rt.body rf.body
        let sim_tb := sim rt.body bsnip
        let sim_fb := sim rf.body bsnip
        if sim_tf < mkRat 6 10 ∧
            (sim_tb > mkRat 85 100 ∨ sim_fb > mkRat 85 100 ∨ rt.status ≠ rf.status) then
          some ⟨"NoSQL Injection (boolean/ops, GET)", p, "High"⟩
        else nosqli_boolean_phase sim net p bsnip rest

/-- Network oracle of the CMDi scanner for one (url, param): `base` is the
unmodified response, `probe v` the response once the candidate value `v`
is injected into the parameter. -/
structure CNet where
  base : Response
  probe : String → Response

/-- Claim-relevant fields of a CMDi timing finding dict. -/
structure CFinding where
  ftype : String
  param : String
  payload : String
deriving DecidableEq

/-- The `TIME_PROBES` list of `cmdi.py`. -/
def TIME_PROBES : List String :=
  [ "; sleep 5", "|| sleep 5", "$(sleep 5)", "; ping -c 5 127.0.0.1" ]

/-- The probe loop of `CMDIScanner.scan_timing_param` (GET, no form data,
so the candidate is the probe fragment itself): flag when
`elapsed - base_dt > TIME_THRESHOLD` (4.5s) and break. -/
def cmdi_timing_loop (net : CNet) (p : String) (baseDt : ℚ) :
    List String → List CFinding
  | [] => []
  | probe :: rest =>
      let r := net.probe probe
      if r.elapsed - baseDt > mkRat 9 2 then
        [⟨"command_injection_timing", p, probe⟩]
      else cmdi_timing_loop net p baseDt rest

/-- Embeds `CMDIScanner.scan_timing_param`: returns immediately with no
probes when `aggressive` is disabled; otherwise measures the baseline and
runs the timing probes. -/
def scan_timing_param (aggressive : Bool) (net : CNet) (p : String) :
    List CFinding :=
  if !aggressive then []
  else cmdi_timing_loop net p net.base.elapsed TIME_PROBES

/-- Network oracle of the SSTI scanner for one (url, param): `none` models
a raised transport exception (the loop's `except: continue`). -/
structure SNet where
  probe : String → Option Response

/-- Claim-relevant fields of an SSTI finding dict (`type` is "reflective"
or "timing"). -/
structure SFinding where
  param : String
  payload : String
  ftype : String
deriving DecidableEq

/-- The `REFLECTIVE_PROBES` of `SSTIScanner` (payload, expected marker);
literal braces are written via hex escapes. -/
def REFLECTIVE_PROBES : List (String × String) :=
  [ ("\x7b\x7b7*7\x7d\x7d", "49"),
    ("$\x7b7*7\x7d", "49"),
    ("<%= 7*7 %>", "49"),
    ("$\x7b\x7b7*7\x7d\x7d", "49"),
    ("$mathTool.multiply(7,7)", "49") ]

/-- The `TIMING_PROBES` of `SSTIScanner`. -/
def SSTI_TIMING_PROBES : List String :=
  [ "\x7b\x7b''.join(['' for x in range(5000000)])\x7d\x7d",
    "$\x7b\x7b ''.join(['' for x in range(5000000)]) \x7d\x7d" ]

/-- Substring test (Python's `marker in body`). -/
def substr_in (needle hay : String) : Bool :=
  let n := needle.toList
  let h := hay.toList
  (List.range (h.length + 1)).any fun i => n.isPrefixOf (h.drop i)

/-- Reflective loop of `SSTIScanner.scan_param`: a failed request is
skipped; a body containing the marker appends a "reflective" finding and
the loop continues (no break in the source). -/
def ssti_reflective_loop (net : SNet) (p : String) :
    List (String × String) → List SFinding
  | [] => []
  | (payload, marker) :: rest =>
      match net.probe payload with
      | none => ssti_reflective_loop net p rest
      | some r =>
          if !marker.isEmpty && substr_in marker r.body then
            ⟨p, payload, "reflective"⟩ :: ssti_reflective_loop net p rest
          else ssti_reflective_loop net p rest

/-- Timing loop of `SSTIScanner.scan_param`: flag when elapsed > 5s,
continue on failure or non-delay. -/
def ssti_timing_loop (net : SNet) (p : String) : List String → List SFinding
  | [] => []
  | payload :: rest =>
      match net.probe payload with
      | none => ssti_timing_loop net p rest
      | some r =>
          if r.elapsed > 5 then
            ⟨p, payload, "timing"⟩ :: ssti_timing_loop net p rest
          else ssti_timing_loop net p rest

/-- Embeds `SSTIScanner.scan_param`: the reflective probes always run; the
timing probes run only under `if self.aggressive`. -/
def ssti_scan_param (aggressive : Bool) (net : SNet) (p : String) :
    List SFinding :=
  ssti_reflective_loop net p REFLECTIVE_PROBES ++
    (if aggressive then ssti_timing_loop net p SSTI_TIMING_PROBES else [])

/-- Mean of the baseline population (`statistics.mean`; the source guards
the empty case with `if self.baseline else 0`). -/
def mean (l : List ℚ) : ℚ :=
  l.sum / l.length

/-- Sample variance, the square of `statistics.stdev` (divisor n-1), with
the source's `if len(self.baseline) > 1 else 0` guard. Working with the
variance instead of the standard deviation keeps the arithmetic rational;
`stdev > 0` iff `variance > 0`, and for a nonnegative threshold
`dev > stdev * t` iff `dev^2 > t^2 * variance`. -/
def sample_variance (l : List ℚ) : ℚ :=
  if l.length ≤ 1 then 0
  else ((l.map fun x => (x - mean l) ^ 2).sum) / ((l.length : ℚ) - 1)

/-- Embeds `TimingAnalyzer.is_delayed`: empty baseline → False; positive
stddev → `|observed - mean| > stddev * threshold` (rendered squared, which
is exact for `threshold ≥ 0`, and trivially true for a negative threshold
since the deviation is nonnegative); zero stddev → the flat fallback
`|observed - mean| > threshold`. -/
def is_delayed (baseline : List ℚ) (response_time threshold : ℚ) : Bool :=
  if baseline = [] then false
  else
    let dev := |response_time - mean baseline|
    let v := sample_variance baseline
    if 0 < v then
      if threshold < 0 then true
      else decide (dev ^ 2 > threshold ^ 2 * v)
    else decide (dev > threshold)

/-- State of `ScanTask` in `backend/core/scheduler.py`; `func` holds the
outcome of executing the task's function (`Except.error` models a raised
exception). -/
structure ScanTask (α : Type) where
  name : String
  func : Except String α
  result : Option α := none
  exception : Option String := none
  completed : Bool := false

/-- Embeds `ScanTask.run`: the try/except records either the result or the
exception, marks the task completed in both branches, and never
re-raises (the embedding is a total function back into `ScanTask`). -/
def ScanTask.run {α : Type} (t : ScanTask α) : ScanTask α :=
  match t.func with
  | Except.ok v => { t with result := some v, completed := true }
  | Except.error e => { t with exception := some e, completed := true }

/-- Embeds `Scheduler.run_all`: every queued task is run to completion
(`asyncio.gather` over `sem_task`; the semaphore affects interleaving
only, which a task's own run does not observe). -/
def run_all {α : Type} (tasks : List (ScanTask α)) : List (ScanTask α) :=
  tasks.map ScanTask.run

/-- Network whose every probe fails with the transport sentinel. -/
def failnet : Network :=
  ⟨⟨200, "ok", 0⟩, fun _ _ => ⟨0, "", 0⟩⟩

/-- A task that completes normally. -/
def task_ok : ScanTask Nat :=
  { name := "a", func := Except.ok 1 }

/-- A task whose function raises. -/
def task_boom : ScanTask Nat :=
  { name := "b", func := Except.error "boom" }

/-- Network used to exhibit a concrete union-phase finding. -/
def unionnet : Network :=
  ⟨⟨200, "Welcome", 0⟩, fun _ _ => ⟨200, "Diff", 0⟩⟩

/-- Network for the C1 counterexample: the first boolean pair's true
payload answers (200, "X") and every other probe (500, "Y"). -/
def c1net : Network :=
  ⟨⟨200, "B", 0⟩,
   fun _ v => if v = "1' OR '1'='1" then ⟨200, "X", 0⟩ else ⟨500, "Y", 0⟩⟩

/-- Network for the C2 counterexample: the first error payload triggers a
DB error fingerprint and the first boolean pair's false branch diverges,
so the same parameter loop appends two findings. -/
def c2net : Network :=
  ⟨⟨200, "Welcome", 0⟩,
   fun _ v =>
     if v = "'" then ⟨200, "SQLITE_ERROR", 0⟩
     else if v = "1' AND '1'='2" then ⟨200, "Other", 0⟩
     else ⟨200, "Welcome", 0⟩⟩

/-- Fetch oracle for the C3 counterexample: two distinct targets with
distinct bodies. -/
def c3fetch : String → Response :=
  fun u => if u = "u1" then ⟨200, "AAA", 0⟩ else ⟨200, "BBB", 0⟩

/-- A cache already holding a snapshot for "id". -/
def c3cache : List (String × Baseline) :=
  [("id", ⟨200, 3, "AAA"⟩)]

/-- Network for the C4 counterexample: only the first SQLi time payload is
slow; everything else answers instantly with the same body. -/
def c4net : Network :=
  ⟨⟨200, "Home", 0⟩,
   fun _ v =>
     if v = "1' OR SLEEP(5)-- " then ⟨200, "Home", 5⟩ else ⟨200, "Home", 0⟩⟩

/-- Network for the C5 end-to-end scenario: the baseline body is
"Welcome"; the first error payload draws the MySQL error banner; every
other probe returns the baseline body instantly. -/
def c5net : Network :=
  ⟨⟨200, "Welcome", 0⟩,
   fun _ v =>
     if v = "'" then ⟨200, "Error: SQL syntax ... MySQL", 0⟩
     else ⟨200, "Welcome", 0⟩⟩

/-- A one-parameter scan starts with an empty cache, so its baseline is the
snapshot of the unmodified response. -/
theorem scan_get_params_singleton (sim : String → String → ℚ) (net : Network)
    (maxCols : Nat) (p : String) :
    scan_get_params sim net maxCols [p] =
      scan_param sim net maxCols p (mkBaseline net.base) := by
  simp [scan_get_params, scan_go, get_baseline, List.lookup]

theorem option_toList_all {α : Type} (o : Option α) (q : α → Bool)
    (h : ∀ x, o = some x → q x = true) : o.toList.all q = true := by
  cases o with
  | none => rfl
  | some x => simpa using h x rfl

theorem option_toList_length {α : Type} (o : Option α) :
    o.toList.length ≤ 1 := by
  cases o <;> simp

theorem error_phase_param (net : Network) (p : String) :
    ∀ (l : List String) (f : Finding),
      error_phase net p l = some f → f.param = p := by
  intro l
  induction l with
  | nil => intro f h; simp [error_phase] at h
  | cons a tl ih =>
      intro f h
      simp only [error_phase] at h
      split at h
      · exact ih f h
      · split at h
        · cases h; rfl
        · exact ih f h

theorem boolean_phase_param (sim : String → String → ℚ) (net : Network)
    (p bsnip : String) :
    ∀ (l : List (String × String)) (f : Finding),
      boolean_phase sim net p bsnip l = some f → f.param = p := by
  intro l
  induction l with
  | nil => intro f h; simp [boolean_phase] at h
  | cons a tl ih =>
      obtain ⟨t, fv⟩ := a
      intro f h
      simp only [boolean_phase] at h
      split at h
      · exact ih f h
      · split at h
        · cases h; rfl
        · exact ih f h

theorem time_phase_param (net : Network) (p : String) :
    ∀ (l : List String) (f : Finding),
      time_phase net p l = some f → f.param = p := by
  intro l
  induction l with
  | nil => intro f h; simp [time_phase] at h
  | cons a tl ih =>
      intro f h
      simp only [time_phase] at h
      split at h
      · exact ih f h
      · split at h
        · cases h; rfl
        · exact ih f h

theorem union_phase_param_severity (sim : String → String → ℚ)
    (net : Network) (p bsnip : String) :
    ∀ (l : List Nat) (f : Finding),
      union_phase sim net p bsnip l = some f →
        f.param = p ∧ ∃ c, f = report "SQL Injection (UNION-based, columns guess)" p
          (union_technique c) := by
  intro l
  induction l with
  | nil => intro f h; simp [union_phase] at h
  | cons a tl ih =>
      intro f h
      simp only [union_phase] at h
      split at h
      · exact ih f h
      · split at h
        · cases h; exact ⟨rfl, a, rfl⟩
        · exact ih f h

/-- C6: the similarity measure is total, stays within [0, 1], and scores
identical texts (including empty strings) exactly 1; there is no error
path (it is a total function into the rationals). -/
theorem c6_similarity_contract (a b : String) :
    0 ≤ similarity a b ∧ similarity a b ≤ 1 ∧ similarity a a = 1 ∧
      similarity "" "" = 1 := by
  refine ⟨?_, ?_, by simp [similarity], by simp [similarity]⟩ <;>
    · unfold similarity
      split <;> norm_num

/-- C7: a transport failure is converted by `_fetch` into the sentinel
result with status 0 instead of propagating, and each of the four probe
phases treats a sentinel response by skipping that payload variant and
continuing with the rest of the list. -/
theorem c7_transport_failures :
    (∀ e : String, fetch_result (Except.error e) = ⟨0, "", 0⟩) ∧
    (∀ (net : Network) (p inj : String) (rest : List String),
      (net.probe p inj).status = 0 →
      error_phase net p (inj :: rest) = error_phase net p rest) ∧
    (∀ (sim : String → String → ℚ) (net : Network) (p bsnip t fv : String)
        (rest : List (String × String)),
      (net.probe p t).status = 0 ∨ (net.probe p fv).status = 0 →
      boolean_phase sim net p bsnip ((t, fv) :: rest) =
        boolean_phase sim net p bsnip rest) ∧
    (∀ (net : Network) (p inj : String) (rest : List String),
      (net.probe p inj).status = 0 →
      time_phase net p (inj :: rest) = time_phase net p rest) ∧
    (∀ (sim : String → String → ℚ) (net : Network) (p bsnip : String)
        (cols : Nat) (rest : List Nat),
      (net.probe p (union_payload cols)).status = 0 →
      union_phase sim net p bsnip (cols :: rest) =
        union_phase sim net p bsnip rest) := by
  refine ⟨fun e => rfl, ?_, ?_, ?_, ?_⟩
  · intro net p inj rest h
    simp [error_phase, h]
  · intro sim net p bsnip t fv rest h
    simp only [boolean_phase]
    rw [if_pos h]
  · intro net p inj rest h
    simp [time_phase, h]
  · intro sim net p bsnip cols rest h
    simp [union_phase, h]

/-- Witness for C7 at concrete inputs. -/
theorem c7_transport_failures_witness :
    fetch_result (Except.error "timeout") = ⟨0, "", 0⟩ ∧
    error_phase failnet "id" ["'"] = error_phase failnet "id" [] ∧
    boolean_phase similarity failnet "id" "" [("a", "b")] =
      boolean_phase similarity failnet "id" "" [] ∧
    time_phase failnet "id" ["x"] = time_phase failnet "id" [] ∧
    union_phase similarity failnet "id" "" [1] =
      union_phase similarity failnet "id" "" [] :=
  ⟨c7_transport_failures.1 "timeout",
   c7_transport_failures.2.1 failnet "id" "'" [] rfl,
   c7_transport_failures.2.2.1 similarity failnet "id" "" "a" "b" []
     (Or.inl rfl),
   c7_transport_failures.2.2.2.1 failnet "id" "x" [] rfl,
   c7_transport_failures.2.2.2.2 similarity failnet "id" "" 1 [] rfl⟩

/-- C8 counterexample: with the two-sample all-equal baseline [1, 1]
(stddev defined and equal to 0), observed 2 and threshold 3, the code
falls back to the flat rule and reports not-delayed, while the claimed
rule for populations of at least 2 samples (`|observed - mean| >
threshold * stddev` with stddev = 0) would report delayed. -/
theorem c8_counterexample :
    is_delayed [1, 1] 2 3 = false ∧
    ([1, 1] : List ℚ).length = 2 ∧
    sample_variance [1, 1] = 0 ∧
    |(2 : ℚ) - mean [1, 1]| > 3 * 0 := by
  refine ⟨?_, by simp, ?_, ?_⟩
  · simp [is_delayed, sample_variance, mean]
    norm_num
  · simp [sample_variance, mean]
  · simp [mean]
    norm_num

/-- C8 (amended): with baseline population [0.1] and threshold 4.5,
`is_delayed 5.0` is true and `is_delayed 0.3` is false; and in general an
empty baseline is never delayed, a zero standard deviation (fewer than 2
samples, or all samples equal) falls back to the flat-second policy
`|observed - mean| > threshold`, and a positive standard deviation uses
`|observed - mean| > threshold * stddev` (stated squared, exactly
equivalent for nonnegative thresholds). -/
theorem c8_timing_decision :
    is_delayed [1/10] 5 (9/2) = true ∧
    is_delayed [1/10] (3/10) (9/2) = false ∧
    (∀ x t : ℚ, is_delayed [] x t = false) ∧
    (∀ (b : List ℚ) (x t : ℚ), b ≠ [] → sample_variance b = 0 →
      is_delayed b x t = decide (|x - mean b| > t)) ∧
    (∀ (b : List ℚ) (x t : ℚ), 0 ≤ t → 0 < sample_variance b →
      is_delayed b x t =
        decide (|x - mean b| ^ 2 > t ^ 2 * sample_variance b)) := by
  refine ⟨?_, ?_, fun x t => rfl, ?_, ?_⟩
  · simp [is_delayed, sample_variance, mean]
    rw [show |(5 : ℚ) - 10⁻¹| = 5 - 10⁻¹ from abs_of_nonneg (by norm_num)]
    norm_num
  · simp [is_delayed, sample_variance, mean]
    rw [show |(3 : ℚ)/10 - 10⁻¹| = 3/10 - 10⁻¹ from abs_of_nonneg (by norm_num)]
    norm_num
  · intro b x t hb hv
    simp [is_delayed, hb, hv]
  · intro b x t ht hv
    rw [is_delayed]
    have hb : b ≠ [] := by
      intro h
      rw [h] at hv
      simp [sample_variance] at hv
    rw [if_neg hb, if_pos hv, if_neg (not_lt.mpr ht)]

/-- Witness for C8's amended general clauses at concrete inputs. -/
theorem c8_timing_decision_witness :
    is_delayed [(5 : ℚ)] 9 2 = decide (|(9 : ℚ) - mean [5]| > 2) ∧
    is_delayed [(0 : ℚ), 2] 3 1 =
      decide (|(3 : ℚ) - mean [0, 2]| ^ 2 > 1 ^ 2 * sample_variance [0, 2]) :=
  ⟨c8_timing_decision.2.2.2.1 [5] 9 2 (by simp)
      (by simp [sample_variance]),
   c8_timing_decision.2.2.2.2 [0, 2] 3 1 (by norm_num)
      (by simp [sample_variance, mean]; norm_num)⟩

/-- C9: a task whose function raises has the exception recorded on it and
is still marked completed (run is a total function and cannot re-raise),
and `run_all` completes every queued task regardless of failures in any
of them. -/
theorem c9_failure_isolation (α : Type) (ts : List (ScanTask α))
    (t : ScanTask α) (e : String) :
    ((run_all ts).all fun x => x.completed) = true ∧
    (run_all ts).length = ts.length ∧
    (t.func = Except.error e →
      (ScanTask.run t).exception = some e ∧
        (ScanTask.run t).completed = true) := by
  refine ⟨?_, by simp [run_all], ?_⟩
  · rw [run_all, List.all_eq_true]
    intro x hx
    obtain ⟨y, _, rfl⟩ := List.mem_map.mp hx
    rw [ScanTask.run]
    cases y.func <;> simp
  · intro h
    rw [ScanTask.run, h]
    exact ⟨rfl, rfl⟩

/-- Witness for C9: a failing task does not stop its sibling or the
scheduler, and its exception is recorded. -/
theorem c9_failure_isolation_witness :
    ((run_all [task_ok, task_boom]).all fun x => x.completed) = true ∧
    (ScanTask.run task_boom).exception = some "boom" :=
  ⟨(c9_failure_isolation Nat [task_ok, task_boom] task_boom "boom").1,
   ((c9_failure_isolation Nat [task_ok, task_boom] task_boom "boom").2.2
      rfl).1⟩

theorem union_technique_length (cols : Nat) :
    (union_technique cols).length = 19 + (Nat.repr cols).length := by
  rw [union_technique, String.length_append, String.length_append]
  have h1 : ("union-based (cols~" : String).length = 18 := by decide
  have h2 : (")" : String).length = 1 := by decide
  omega

theorem union_technique_ne_literals (cols : Nat) :
    union_technique cols ≠ "time-blind" ∧
    union_technique cols ≠ "union-based" ∧
    union_technique cols ≠ "error-based" := by
  have hlen := union_technique_length cols
  have h10 : ("time-blind" : String).length = 10 := by decide
  have h11 : ("union-based" : String).length = 11 := by decide
  have h12 : ("error-based" : String).length = 11 := by decide
  refine ⟨fun h => ?_, fun h => ?_, fun h => ?_⟩ <;> rw [h] at hlen <;> omega

/-- C10: the technique string passed for union probes is
"union-based (cols~N)", which never equals the literal "union-based"
checked by `_report`'s severity rule, so every union finding is assigned
severity "Medium", not "High". -/
theorem c10_union_severity (cols : Nat) (sim : String → String → ℚ)
    (net : Network) (p bsnip : String) (colsList : List Nat) (f : Finding) :
    union_technique cols ≠ "union-based" ∧
    severityFor (union_technique cols) = "Medium" ∧
    (union_phase sim net p bsnip colsList = some f →
      f.severity = "Medium") := by
  have hmed : ∀ c : Nat, severityFor (union_technique c) = "Medium" := by
    intro c
    have hne := union_technique_ne_literals c
    rw [severityFor, if_neg]
    push_neg
    exact ⟨hne.1, hne.2.1, hne.2.2⟩
  refine ⟨(union_technique_ne_literals cols).2.1, hmed cols, fun h => ?_⟩
  obtain ⟨-, c, rfl⟩ := union_phase_param_severity sim net p bsnip colsList f h
  exact hmed c

/-- Witness for C10: a concrete union probe that fires yields a finding of
severity "Medium". -/
theorem c10_union_severity_witness :
    (report "SQL Injection (UNION-based, columns guess)" "id"
      (union_technique 1)).severity = "Medium" :=
  (c10_union_severity 1 similarity unionnet "id" "Welcome" [1]
    (report "SQL Injection (UNION-based, columns guess)" "id"
      (union_technique 1))).2.2 (by decide)

theorem boolean_phase_some_iff (sim : String → String → ℚ) (net : Network)
    (p bsnip : String) :
    ∀ pairs : List (String × String),
      (boolean_phase sim net p bsnip pairs).isSome = true ↔
        ∃ pr ∈ pairs,
          (net.probe p pr.1).status ≠ 0 ∧ (net.probe p pr.2).status ≠ 0 ∧
          sim (net.probe p pr.1).body (net.probe p pr.2).body < mkRat 6 10 ∧
          (sim (net.probe p pr.1).body bsnip > mkRat 85 100 ∨
            sim (net.probe p pr.2).body bsnip > mkRat 85 100) := by
  intro pairs
  induction pairs with
  | nil => simp [boolean_phase]
  | cons hd tl ih =>
      obtain ⟨t, fv⟩ := hd
      simp only [boolean_phase]
      by_cases h0 : (net.probe p t).status = 0 ∨ (net.probe p fv).status = 0
      · rw [if_pos h0, ih]
        constructor
        · rintro ⟨pr, hm, hc⟩
          exact ⟨pr, List.mem_cons_of_mem _ hm, hc⟩
        · rintro ⟨pr, hm, hc⟩
          rcases List.mem_cons.mp hm with rfl | hm2
          · rcases h0 with h | h
            · exact absurd h hc.1
            · exact absurd h hc.2.1
          · exact ⟨pr, hm2, hc⟩
      · push_neg at h0
        rw [if_neg (by simpa using h0)]
        by_cases hc : sim (net.probe p t).body (net.probe p fv).body < mkRat 6 10 ∧
            (sim (net.probe p t).body bsnip > mkRat 85 100 ∨
              sim (net.probe p fv).body bsnip > mkRat 85 100)
        · rw [if_pos hc]
          simp only [Option.isSome_some, true_iff]
          exact ⟨(t, fv), List.mem_cons_self _ _, h0.1, h0.2, hc.1, hc.2⟩
        · rw [if_neg hc, ih]
          constructor
          · rintro ⟨pr, hm, hcc⟩
            exact ⟨pr, List.mem_cons_of_mem _ hm, hcc⟩
          · rintro ⟨pr, hm, hcc⟩
            rcases List.mem_cons.mp hm with rfl | hm2
            · exact absurd ⟨hcc.2.2.1, hcc.2.2.2⟩ hc
            · exact ⟨pr, hm2, hcc⟩

theorem nosqli_boolean_phase_some_iff (sim : String → String → ℚ)
    (net : Network) (p bsnip : String) :
    ∀ pairs : List (String × String),
      (nosqli_boolean_phase sim net p bsnip pairs).isSome = true ↔
        ∃ pr ∈ pairs,
          (net.probe p pr.1).status ≠ 0 ∧ (net.probe p pr.2).status ≠ 0 ∧
          sim (net.probe p pr.1).body (net.probe p pr.2).body < mkRat 6 10 ∧
          (sim (net.probe p pr.1).body bsnip > mkRat 85 100 ∨
            sim (net.probe p pr.2).body bsnip > mkRat 85 100 ∨
            (net.probe p pr.1).status ≠ (net.probe p pr.2).status) := by
  intro pairs
  induction pairs with
  | nil => simp [nosqli_boolean_phase]
  | cons hd tl ih =>
      obtain ⟨t, fv⟩ := hd
      simp only [nosqli_boolean_phase]
      by_cases h0 : (net.probe p t).status = 0 ∨ (net.probe p fv).status = 0
      · rw [if_pos h0, ih]
        constructor
        · rintro ⟨pr, hm, hc⟩
          exact ⟨pr, List.mem_cons_of_mem _ hm, hc⟩
        · rintro ⟨pr, hm, hc⟩
          rcases List.mem_cons.mp hm with rfl | hm2
          · rcases h0 with h | h
            · exact absurd h hc.1
            · exact absurd h hc.2.1
          · exact ⟨pr, hm2, hc⟩
      · push_neg at h0
        rw [if_neg (by simpa using h0)]
        by_cases hc : sim (net.probe p t).body (net.probe p fv).body < mkRat 6 10 ∧
            (sim (net.probe p t).body bsnip > mkRat 85 100 ∨
              sim (net.probe p fv).body bsnip > mkRat 85 100 ∨
              (net.probe p t).status ≠ (net.probe p fv).status)
        · rw [if_pos hc]
          simp only [Option.isSome_some, true_iff]
          exact ⟨(t, fv), List.mem_cons_self _ _, h0.1, h0.2, hc.1, hc.2⟩
        · rw [if_neg hc, ih]
          constructor
          · rintro ⟨pr, hm, hcc⟩
            exact ⟨pr, List.mem_cons_of_mem _ hm, hcc⟩
          · rintro ⟨pr, hm, hcc⟩
            rcases List.mem_cons.mp hm with rfl | hm2
            · exact absurd ⟨hcc.2.2.1, hcc.2.2.2⟩ hc
            · exact ⟨pr, hm2, hcc⟩

/-- C1 counterexample: in the SQLi module the first executed boolean pair
has `sim_tf < 0.60` and differing status codes (200 vs 500), which the
claimed rule reports as a match, yet the SQLi boolean-pair procedure
reports none — its decision lacks the status-code disjunct. -/
theorem c1_counterexample :
    boolean_phase similarity c1net "id" "B" boolean_pairs = none ∧
    similarity (c1net.probe "id" "1' OR '1'='1").body
        (c1net.probe "id" "1' AND '1'='2").body < mkRat 6 10 ∧
    (c1net.probe "id" "1' OR '1'='1").status ≠ 0 ∧
    (c1net.probe "id" "1' AND '1'='2").status ≠ 0 ∧
    (c1net.probe "id" "1' OR '1'='1").status ≠
      (c1net.probe "id" "1' AND '1'='2").status := by
  refine ⟨by decide, by decide, by decide, by decide, by decide⟩

/-- C1 (amended): the boolean-pair procedure of the NoSQLi module reports
a match iff some executed pair satisfies `sim_tf < 0.60` and
(`sim_tb > 0.85` or `sim_fb > 0.85` or the status codes differ); the SQLi
module's copy uses the same rule without the status-code disjunct. -/
theorem c1_boolean_pair_rule (sim : String → String → ℚ) (net : Network)
    (p bsnip : String) (pairs : List (String × String)) :
    ((boolean_phase sim net p bsnip pairs).isSome = true ↔
      ∃ pr ∈ pairs,
        (net.probe p pr.1).status ≠ 0 ∧ (net.probe p pr.2).status ≠ 0 ∧
        sim (net.probe p pr.1).body (net.probe p pr.2).body < mkRat 6 10 ∧
        (sim (net.probe p pr.1).body bsnip > mkRat 85 100 ∨
          sim (net.probe p pr.2).body bsnip > mkRat 85 100)) ∧
    ((nosqli_boolean_phase sim net p bsnip pairs).isSome = true ↔
      ∃ pr ∈ pairs,
        (net.probe p pr.1).status ≠ 0 ∧ (net.probe p pr.2).status ≠ 0 ∧
        sim (net.probe p pr.1).body (net.probe p pr.2).body < mkRat 6 10 ∧
        (sim (net.probe p pr.1).body bsnip > mkRat 85 100 ∨
          sim (net.probe p pr.2).body bsnip > mkRat 85 100 ∨
          (net.probe p pr.1).status ≠ (net.probe p pr.2).status)) :=
  ⟨boolean_phase_some_iff sim net p bsnip pairs,
   nosqli_boolean_phase_some_iff sim net p bsnip pairs⟩

set_option maxRecDepth 8000 in
/-- C2 counterexample: one execution of the SQLi per-parameter loop emits
two findings for the same parameter (error-based and boolean-blind), so
the scanner does not stop at the first positive match across its
procedures. -/
theorem c2_counterexample :
    (scan_get_params similarity c2net 6 ["id"]).length = 2 ∧
    ((scan_get_params similarity c2net 6 ["id"]).all
      fun f => f.param == "id") = true ∧
    (scan_get_params similarity c2net 6 ["id"]).map (fun f => f.technique) =
      ["error-based", "boolean-blind"] := by
  have hsnip : (mkBaseline c2net.base).snippet = "Welcome" := by decide
  have he : error_phase c2net "id" error_payloads =
      some (report "SQL Injection (Error-based)" "id" "error-based") := by
    decide
  have hb : boolean_phase similarity c2net "id" "Welcome" boolean_pairs =
      some (report "SQL Injection (Boolean-based)" "id" "boolean-blind") := by
    decide
  have ht : time_phase c2net "id" time_payloads = none := by decide
  have hu : union_phase similarity c2net "id" "Welcome"
      (union_cols_range 6) = none := by decide
  have hscan : scan_get_params similarity c2net 6 ["id"] =
      [report "SQL Injection (Error-based)" "id" "error-based",
       report "SQL Injection (Boolean-based)" "id" "boolean-blind"] := by
    rw [scan_get_params_singleton, scan_param, hsnip, he, hb, ht, hu]
    rfl
  rw [hscan]
  refine ⟨rfl, by decide, by decide⟩

/-- C2 (amended): within each of the four category procedures the scanner
stops at the first positive match (each contributes at most one finding),
so one execution of the per-parameter loop emits at most four findings for
a parameter — at most one per procedure — and every emitted finding names
that parameter. -/
theorem c2_one_finding_per_procedure (sim : String → String → ℚ)
    (net : Network) (maxCols : Nat) (p : String) (b : Baseline) :
    scan_param sim net maxCols p b =
      (error_phase net p error_payloads).toList ++
      (boolean_phase sim net p b.snippet boolean_pairs).toList ++
      (time_phase net p time_payloads).toList ++
      (union_phase sim net p b.snippet (union_cols_range maxCols)).toList ∧
    (scan_param sim net maxCols p b).length ≤ 4 ∧
    ((scan_param sim net maxCols p b).all fun f => f.param == p) = true := by
  refine ⟨rfl, ?_, ?_⟩
  · rw [scan_param]
    simp only [List.length_append]
    have h1 := option_toList_length (error_phase net p error_payloads)
    have h2 := option_toList_length
      (boolean_phase sim net p b.snippet boolean_pairs)
    have h3 := option_toList_length (time_phase net p time_payloads)
    have h4 := option_toList_length
      (union_phase sim net p b.snippet (union_cols_range maxCols))
    omega
  · rw [scan_param]
    simp only [List.all_append, Bool.and_eq_true]
    refine ⟨⟨⟨?_, ?_⟩, ?_⟩, ?_⟩ <;> apply option_toList_all <;> intro f hf <;>
      simp only [beq_iff_eq]
    · exact error_phase_param net p _ f hf
    · exact boolean_phase_param sim net p b.snippet _ f hf
    · exact time_phase_param net p _ f hf
    · exact (union_phase_param_severity sim net p b.snippet _ f hf).1

set_option maxRecDepth 4000 in
/-- C3 counterexample: the baseline cache is keyed by parameter name
alone, so after scanning parameter "id" on target "u1", the first baseline
request for the distinct key ("u2", "id") performs no network fetch and
returns target u1's snapshot ("AAA") instead of u2's own snapshot
("BBB"). -/
theorem c3_counterexample :
    (get_baseline c3fetch
      ((get_baseline c3fetch [] "u1" "id").2.1) "u2" "id").2.2 = 0 ∧
    (get_baseline c3fetch
      ((get_baseline c3fetch [] "u1" "id").2.1) "u2" "id").1.snippet =
      "AAA" ∧
    (mkBaseline (c3fetch "u2")).snippet = "BBB" := by
  refine ⟨by decide, by decide, by decide⟩

/-- C3 (amended): a baseline is fetched at most once per parameter name —
the cache key is the parameter alone, not the (target, parameter) pair: a
cache hit performs no network fetch and returns the stored snapshot
(whatever target populated it), and a miss performs exactly one unmodified
request to the given target and stores (status, body length, 4000-char
body prefix); within `scan_get_params` all payload variants for a
parameter are compared against that single snapshot. -/
theorem c3_baseline_cache (fetch : String → Response)
    (cache : List (String × Baseline)) (url param : String) :
    (∀ b, cache.lookup param = some b →
      get_baseline fetch cache url param = (b, cache, 0)) ∧
    (cache.lookup param = none →
      get_baseline fetch cache url param =
        (mkBaseline (fetch url), (param, mkBaseline (fetch url)) :: cache,
          1)) := by
  constructor
  · intro b h
    rw [get_baseline, h]
  · intro h
    rw [get_baseline, h]

/-- Witness for C3's amended cache contract at concrete inputs. -/
theorem c3_baseline_cache_witness :
    get_baseline c3fetch c3cache "u2" "id" =
      (⟨200, 3, "AAA"⟩, c3cache, 0) ∧
    get_baseline c3fetch [] "u1" "id" =
      (mkBaseline (c3fetch "u1"),
        ("id", mkBaseline (c3fetch "u1")) :: [], 1) :=
  ⟨(c3_baseline_cache c3fetch c3cache "u2" "id").1 ⟨200, 3, "AAA"⟩ rfl,
   (c3_baseline_cache c3fetch [] "u1" "id").2 rfl⟩

set_option maxRecDepth 8000 in
/-- C4 counterexample: the SQLi scanner has no aggressive flag at all —
`scan_get_params` sends its delay payloads on every invocation, and here a
delayed response yields a time-blind finding even though nothing enabled
aggressive probing. -/
theorem c4_counterexample :
    (scan_get_params similarity c4net 6 ["id"]).map (fun f => f.technique) =
      ["time-blind"] := by
  have hsnip : (mkBaseline c4net.base).snippet = "Home" := by decide
  have he : error_phase c4net "id" error_payloads = none := by decide
  have hb : boolean_phase similarity c4net "id" "Home" boolean_pairs =
      none := by decide
  have ht : time_phase c4net "id" time_payloads =
      some (report "SQL Injection (Time-based)" "id" "time-blind") := by
    decide
  have hu : union_phase similarity c4net "id" "Home"
      (union_cols_range 6) = none := by decide
  rw [scan_get_params_singleton, scan_param, hsnip, he, hb, ht, hu]
  rfl

theorem ssti_reflective_ftype (net : SNet) (p : String) :
    ∀ (l : List (String × String)) (f : SFinding),
      f ∈ ssti_reflective_loop net p l → f.ftype = "reflective" := by
  intro l
  induction l with
  | nil => intro f h; simp [ssti_reflective_loop] at h
  | cons a tl ih =>
      obtain ⟨payload, marker⟩ := a
      intro f h
      cases hp : net.probe payload with
      | none =>
          simp only [ssti_reflective_loop, hp] at h
          exact ih f h
      | some r =>
          simp only [ssti_reflective_loop, hp] at h
          split at h
          · rcases List.mem_cons.mp h with rfl | hm
            · rfl
            · exact ih f hm
          · exact ih f h

/-- C4 (amended): the CMDi and SSTI timing procedures run only when the
caller enables aggressive probing — with the flag disabled
`scan_timing_param` returns without sending any probe, and the SSTI scan
emits no timing-type finding; the SQLi scanner's time-based procedure has
no such gate. -/
theorem c4_aggressive_gate (cnet : CNet) (snet : SNet) (p q : String) :
    scan_timing_param false cnet p = [] ∧
    ((ssti_scan_param false snet q).all
      fun f => !(f.ftype == "timing")) = true := by
  constructor
  · rfl
  · rw [ssti_scan_param]
    simp only [if_neg (Bool.false_ne_true), List.append_nil]
    rw [List.all_eq_true]
    intro f hf
    have hr : f.ftype = "reflective" := ssti_reflective_ftype snet q _ f hf
    simp [hr]

set_option maxRecDepth 8000 in
/-- C5: in the error-signature procedure the payloads are evaluated in
list order and the first non-sentinel response matching the DB error
fingerprint table wins; and in the end-to-end scenario (baseline
200/"Welcome", error payload answered by 200/"Error: SQL syntax ...
MySQL") the scan emits exactly one finding for the parameter, with
technique "error-based" and severity "High". -/
theorem c5_error_signature :
    (∀ (net : Network) (p : String) (skipped : List String) (inj : String)
        (rest : List String),
      (skipped.all fun x =>
        ((net.probe p x).status == 0) ||
          !looks_like_db_error (net.probe p x).body) = true →
      (net.probe p inj).status ≠ 0 →
      looks_like_db_error (net.probe p inj).body = true →
      error_phase net p (skipped ++ inj :: rest) =
        some (report "SQL Injection (Error-based)" p "error-based")) ∧
    scan_get_params similarity c5net 6 ["id"] =
      [⟨"SQL Injection (Error-based)", "id", "error-based", "High"⟩] := by
  constructor
  · intro net p skipped
    induction skipped with
    | nil =>
        intro inj rest _ h1 h2
        simp [error_phase, h1, h2]
    | cons a tl ih =>
        intro inj rest hall h1 h2
        simp only [List.all_cons, Bool.and_eq_true] at hall
        obtain ⟨ha, htl⟩ := hall
        simp only [Bool.or_eq_true, beq_iff_eq, Bool.not_eq_true'] at ha
        simp only [List.cons_append, error_phase]
        by_cases hs : (net.probe p a).status = 0
        · rw [if_pos hs]
          exact ih inj rest htl h1 h2
        · rcases ha with hz | hnm
          · exact absurd hz hs
          · rw [if_neg hs, if_neg (by simp [hnm])]
            exact ih inj rest htl h1 h2
  · have hsnip : (mkBaseline c5net.base).snippet = "Welcome" := by decide
    have he : error_phase c5net "id" error_payloads =
        some (report "SQL Injection (Error-based)" "id" "error-based") := by
      decide
    have hb : boolean_phase similarity c5net "id" "Welcome" boolean_pairs =
        none := by decide
    have ht : time_phase c5net "id" time_payloads = none := by decide
    have hu : union_phase similarity c5net "id" "Welcome"
        (union_cols_range 6) = none := by decide
    rw [scan_get_params_singleton, scan_param, hsnip, he, hb, ht, hu]
    decide

/-- Witness for C5's ordering clause: one harmless payload is skipped,
then the matching payload produces the error-based finding. -/
theorem c5_error_signature_witness :
    error_phase c5net "id" (["1'--"] ++ "'" :: []) =
      some (report "SQL Injection (Error-based)" "id" "error-based") :=
  c5_error_signature.1 c5net "id" ["1'--"] "'" [] (by decide) (by decide)
    (by decide)

end VScan
